import Mathlib

/-!
Verification of the lessweb framework core against its specification.

The embedding below translates `src/lessweb/webapi.py` and
`src/lessweb/plugin/database.py` directly; the application/context layer
(interceptor chain builder, parameter binder, router, dispatch), whose
source file is not part of the repository snapshot, is modelled from the
specification where a claim needs it (each such definition says so in its
doc comment).
-/

namespace Lessweb

/-! ## Ordered string dictionaries (Python `dict` with string keys) -/

/-- Association lookup in an ordered dictionary (first matching key wins),
mirroring Python `d.get(k)`. -/
def assoc (l : List (String × String)) (k : String) : Option String :=
  (l.find? (fun p => p.1 = k)).map Prod.snd

/-- Python `dict(d, k=v)`: if `k` is already present its value is replaced
in place, otherwise the pair is appended at the end (insertion order). -/
def dictSet (l : List (String × String)) (k v : String) : List (String × String) :=
  if (l.map Prod.fst).contains k then
    l.map (fun p => if p.1 = k then (k, v) else p)
  else
    l ++ [(k, v)]

/-! ## `webapi.py`: HttpError hierarchy -/

/-- `HttpError` from `webapi.py`: status code, body text and headers. -/
structure HttpError where
  status_code : Nat
  text : String
  headers : List (String × String)
deriving DecidableEq, Repr

/-- `HttpError.__init__`: `self.headers = headers or {}`. -/
def HttpError.make (status_code : Nat) (text : String)
    (headers : Option (List (String × String))) : HttpError :=
  { status_code := status_code, text := text, headers := headers.getD [] }

/-- `_TextHttpError.__init__`: `headers = headers or {}` then
`dict(headers, **{'Content-Type': 'text/html'})`. -/
def textHttpError (status_code : Nat) (text : String)
    (headers : Option (List (String × String))) : HttpError :=
  HttpError.make status_code text (some (dictSet (headers.getD []) "Content-Type" "text/html"))

/-- Python truthiness of an `Optional[List[str]]` value: `None` and the
empty list are falsy. -/
def truthyList (o : Option (List String)) : Bool :=
  match o with
  | none => false
  | some l => !l.isEmpty

/-- Python `sep.join(parts)`. -/
def joinSep (sep : String) : List String → String
  | [] => ""
  | [a] => a
  | a :: rest => a ++ sep ++ joinSep sep rest

/-- `NoMethod.__init__` from `webapi.py`:
`headers = headers or {}`; `if methods: headers = dict(headers, Allow=', '.join(methods))`;
then `_TextHttpError.__init__(status_code=405, ...)`. -/
def NoMethod (text : String) (methods : Option (List String))
    (headers : Option (List (String × String))) : HttpError :=
  let h := headers.getD []
  let h := if truthyList methods then
      dictSet h "Allow" (joinSep ", " (methods.getD []))
    else h
  textHttpError 405 text (some h)

/-- The default value of the `methods` parameter of `NoMethod.__init__`:
the Python expression `None and ['GET', ...]` short-circuits to `None`. -/
def noMethodDefaultMethods : Option (List String) := none

/-- `NoMethod()` called with all defaults (`text=''`, `methods=None and [...]`,
`headers=None`). -/
def noMethodDefault : HttpError := NoMethod "" noMethodDefaultMethods none

/-- `BadRequest` from `webapi.py`: a `_TextHttpError` with status 400. -/
def BadRequest (text : String) (headers : Option (List (String × String))) : HttpError :=
  textHttpError 400 text headers

/-- `NotFound.__init__` from `webapi.py`: `headers or {}`, and when empty the
headers become `{'Content-Type': 'text/html'}`; status 404. -/
def NotFound (text : String) (headers : Option (List (String × String))) : HttpError :=
  let h := headers.getD []
  let h := if h.isEmpty then [("Content-Type", "text/html")] else h
  HttpError.make 404 text (some h)

/-! ## `webapi.py`: framework exceptions -/

/-- `NeedParamError` from `webapi.py`: constructed with `(query, doc)`. -/
structure NeedParamError where
  query : String
  doc : String
deriving DecidableEq, Repr

/-- `NeedParamError.__str__`: `'query:%s doc:%s' % (self.query, self.doc)`. -/
def NeedParamError.str (e : NeedParamError) : String :=
  "query:" ++ e.query ++ " doc:" ++ e.doc

/-- `BadParamError` from `webapi.py`: constructed with `(query, error)`,
where `error` is the coercion error message. -/
structure BadParamError where
  query : String
  error : String
deriving DecidableEq, Repr

/-- `BadParamError.__str__`: `'query:%s error:%s' % (self.query, self.error)`. -/
def BadParamError.str (e : BadParamError) : String :=
  "query:" ++ e.query ++ " error:" ++ e.error

/-! ## Interceptor chain

Modelled from the spec: the chain builder lives in `lessweb/application.py`
and `lessweb/context.py`, which are not part of the repository snapshot.
Per spec section 4.2, an interceptor receives the context and a continuation
for "the rest of the chain"; the chain is built by folding right-to-left over
`global list ++ per-handler list`, so the first interceptor is outermost.
Execution traces are made observable through an explicit event log. -/

/-- Observable execution events of a chain run: an interceptor entering,
an interceptor exiting, or the terminal handler running. -/
inductive Ev where
  | enter (label : String)
  | exit (label : String)
  | handler (label : String)
deriving DecidableEq, Repr

/-- A continuation: consumes the event log so far, returns the extended log
and a result. -/
def Cont (α : Type) : Type := List Ev → List Ev × α

/-- Modelled from the spec: an interceptor wraps the remaining chain
(a continuation) into a new continuation (spec section 4.2). -/
def Interceptor (α : Type) : Type := Cont α → Cont α

/-- Modelled from the spec: the chain is built by folding right-to-left, the
last interceptor wrapping the handler, so the first interceptor in the list
is outermost (spec section 4.2). -/
def buildChain (its : List (Interceptor α)) (h : Cont α) : Cont α :=
  its.foldr (fun i k => i k) h

/-- A transparent logging interceptor: records its entry, invokes the
continuation exactly once, records its exit, and returns the continuation's
result unmodified. -/
def logIt (label : String) : Interceptor α :=
  fun next log =>
    match next (log ++ [Ev.enter label]) with
    | (log2, v) => (log2 ++ [Ev.exit label], v)

/-- A short-circuiting interceptor: never invokes its continuation and
returns its own value (spec section 4.2, case (c)). -/
def shortCircuit (v : α) : Interceptor α :=
  fun _next log => (log, v)

/-- A terminal handler producing a fixed value and logging that it ran. -/
def handlerH (label : String) (v : α) : Cont α :=
  fun log => (log ++ [Ev.handler label], v)

/-! ## Parameter binder

Modelled from the spec: the binder lives in the missing application/context
layer. Per spec section 4.1, a parameter typed `Context` is injected; any
other parameter is looked up by name across path params, then query params,
then body fields, and coerced to its declared type; a missing parameter
raises `NeedParamError(name, handler_doc)` and a failed coercion raises
`BadParamError(name, coercion_error)`. -/

/-- The per-request context: matched path, method, extracted path
parameters, query parameters and parsed body fields. -/
structure Ctx where
  path : String
  method : String
  pathParams : List (String × String)
  queryParams : List (String × String)
  bodyParams : List (String × String)
deriving DecidableEq, Repr

/-- Modelled from the spec: resolution order per parameter is path params,
then query params, then body fields; the first source containing the name
wins (spec section 4.1). -/
def lookupParam (ctx : Ctx) (name : String) : Option String :=
  match assoc ctx.pathParams name with
  | some v => some v
  | none =>
    match assoc ctx.queryParams name with
    | some v => some v
    | none => assoc ctx.bodyParams name

/-- Declared parameter types handled by the coercion rules of spec
section 4.1 (string passthrough, integer parse, boolean token set). -/
inductive PType where
  | strT
  | intT
  | boolT
deriving DecidableEq, Repr

/-- A coerced parameter value. -/
inductive PVal where
  | vStr (s : String)
  | vInt (n : Int)
  | vBool (b : Bool)
deriving DecidableEq, Repr

/-- Parse a non-empty digit sequence as a natural number. -/
def natOfCharsAux : List Char → Nat → Option Nat
  | [], acc => some acc
  | c :: cs, acc =>
    if c.isDigit then natOfCharsAux cs (acc * 10 + (c.toNat - 48)) else none

/-- Integer parse (an optional leading minus sign followed by at least one
digit), the decimal-literal subset of Python `int(s)`. -/
def strToInt? (s : String) : Option Int :=
  match s.data with
  | [] => none
  | c :: cs =>
    if c = '-' then
      match cs with
      | [] => none
      | _ => (natOfCharsAux cs 0).map (fun n => -(n : Int))
    else (natOfCharsAux s.data 0).map (fun n => (n : Int))

/-- Lower-case a string character by character. -/
def strLower (s : String) : String := String.mk (s.data.map Char.toLower)

/-- Modelled from the spec: coercion rules — string passthrough, integer
parse, boolean from the fixed token set true/false/1/0 case-insensitive
(spec section 4.1). Failure returns the coercion error message. -/
def coerce : PType → String → Except String PVal
  | .strT, s => .ok (.vStr s)
  | .intT, s =>
    match strToInt? s with
    | some n => .ok (.vInt n)
    | none => .error ("invalid literal for int: " ++ s)
  | .boolT, s =>
    let t := strLower s
    if t = "true" || t = "1" then .ok (.vBool true)
    else if t = "false" || t = "0" then .ok (.vBool false)
    else .error ("invalid literal for bool: " ++ s)

/-- A declared handler parameter: either typed `Context` (injected) or a
data parameter with a name and a declared type. -/
inductive ParamDecl where
  | ctxP (name : String)
  | dataP (name : String) (ty : PType)
deriving DecidableEq, Repr

/-- A handler signature captured at registration time: the declared
parameters plus the handler documentation string. -/
structure HandlerSig where
  params : List ParamDecl
  doc : String
deriving DecidableEq, Repr

/-- A binding failure: one of the two framework exceptions of `webapi.py`. -/
inductive BindError where
  | needE (e : NeedParamError)
  | badE (e : BadParamError)
deriving DecidableEq, Repr

/-- A bound argument: the injected live context, or a coerced data value. -/
inductive BoundArg where
  | injectedCtx (c : Ctx)
  | datum (v : PVal)
deriving DecidableEq, Repr

/-- Modelled from the spec: bind one declared parameter. A `Context`-typed
parameter receives the live context and is never looked up nor coerced; a
data parameter is resolved by `lookupParam` then coerced, failing with
`NeedParamError(name, doc)` when absent and `BadParamError(name, error)`
when coercion fails (spec section 4.1). -/
def bindOne (doc : String) (ctx : Ctx) : ParamDecl → Except BindError BoundArg
  | .ctxP _ => .ok (.injectedCtx ctx)
  | .dataP n ty =>
    match lookupParam ctx n with
    | none => .error (.needE ⟨n, doc⟩)
    | some raw =>
      match coerce ty raw with
      | .ok v => .ok (.datum v)
      | .error msg => .error (.badE ⟨n, msg⟩)

/-- Modelled from the spec: bind every declared parameter of a signature,
failing on the first binding error. -/
def bindAll (sig : HandlerSig) (ctx : Ctx) : Except BindError (List BoundArg) :=
  sig.params.mapM (bindOne sig.doc ctx)

/-- Modelled from the spec: conversion of a binding error to a 400-class
response at the application boundary (spec sections 4.1 and 7), using the
`BadRequest` constructor of `webapi.py`. -/
def bindErrorResponse : BindError → HttpError
  | .needE e => BadRequest e.str none
  | .badE e => BadRequest e.str none

/-! ## Router

Modelled from the spec: the router lives in the missing application layer.
Per spec section 4.3, matching compares segment counts and literal segments;
a named segment matches any single non-empty segment and is captured. -/

/-- Split a character list at every slash. -/
def splitSlash : List Char → List Char → List String
  | [], acc => [String.mk acc.reverse]
  | c :: cs, acc =>
    if c = '/' then String.mk acc.reverse :: splitSlash cs []
    else splitSlash cs (c :: acc)

/-- Split a URL path or pattern into segments (Python `p.split('/')`). -/
def splitPath (p : String) : List String := splitSlash p.data []

/-- The opening brace character of a named pattern segment. -/
def lbrace : Char := Char.ofNat 123

/-- The closing brace character of a named pattern segment. -/
def rbrace : Char := Char.ofNat 125

/-- Whether a pattern segment is a named parameter segment (brace-wrapped). -/
def isNamedSeg (s : String) : Bool :=
  s.data.head? = some lbrace && s.data.getLast? = some rbrace

/-- The parameter name of a named segment: the text between the braces. -/
def segName (s : String) : String := String.mk ((s.data.drop 1).dropLast)

/-- Modelled from the spec: match pattern segments against path segments;
literal segments must be equal, named segments match any single non-empty
segment and are captured (spec section 4.3). -/
def matchSegs : List String → List String → Option (List (String × String))
  | [], [] => some []
  | p :: pr, s :: sr =>
    if isNamedSeg p then
      if s ≠ "" then (matchSegs pr sr).map (fun caps => (segName p, s) :: caps)
      else none
    else if p = s then matchSegs pr sr
    else none
  | _, _ => none

/-- Match a registered path pattern against a concrete request path. -/
def matchPattern (pat : String) (path : String) : Option (List (String × String)) :=
  matchSegs (splitPath pat) (splitPath path)

/-! ## Application

Modelled from the spec: `Application` owns the route table and the global
interceptor list; dispatch resolves the route, builds the context, builds
the chain over `global ++ per-handler` interceptors, and converts routing
and binding failures to HttpError responses (spec sections 4.3, 4.4, 7). -/

/-- Handler response: a JSON-object-like ordered dictionary. -/
def Resp : Type := List (String × String)

/-- The value carried through a dispatch chain: a response or a binding
error (binding occurs when the continuation reaches the handler). -/
def DispV : Type := Except BindError Resp

/-- A registered handler object: its captured signature, its
implementation on bound arguments, and interceptors attached to it by the
decorator facility (inserted after all global interceptors). -/
structure HandlerObj where
  sig : HandlerSig
  impl : List BoundArg → Resp
  wrapped : List (Interceptor DispV)

/-- A route: HTTP method, path pattern and handler object. -/
structure Route where
  method : String
  pattern : String
  handler : HandlerObj

/-- The application registry: route table plus global interceptor list. -/
structure App where
  routes : List Route
  globals : List (Interceptor DispV)

/-- A fresh application. -/
def App.empty : App := { routes := [], globals := [] }

/-- `Application.add_mapping(path, method, handler)`. -/
def App.add_mapping (a : App) (pattern method : String) (h : HandlerObj) : App :=
  { a with routes := a.routes ++ [{ method := method, pattern := pattern, handler := h }] }

/-- `Application.add_interceptor(fn)`: appends to the global list. -/
def App.add_interceptor (a : App) (i : Interceptor DispV) : App :=
  { a with globals := a.globals ++ [i] }

/-- Modelled from the spec: the `interceptor(...)` decorator attaches
per-handler interceptors to a handler, innermost relative to globals. -/
def attachInterceptor (i : Interceptor DispV) (h : HandlerObj) : HandlerObj :=
  { h with wrapped := i :: h.wrapped }

/-- Modelled from the spec: the terminal continuation — bind the handler's
parameters against the live context and invoke the implementation; binding
errors become the chain value without running the handler (spec section 7:
binding occurs at the point the continuation reaches the handler). -/
def handlerCont (h : HandlerObj) (ctx : Ctx) : Cont DispV :=
  fun log =>
    match bindAll h.sig ctx with
    | .ok args => (log ++ [Ev.handler "handler"], .ok (h.impl args))
    | .error e => (log, .error e)

/-- Modelled from the spec: dispatch — resolve the route by pattern then
method, build the context with captured path parameters, run the chain of
`global ++ per-handler` interceptors around the handler; no matching
pattern gives `NotFound`, a matching pattern without a matching method
gives `NoMethod` carrying the allowed methods (spec sections 4.3, 4.4). -/
def App.dispatch (a : App) (method path : String)
    (query body : List (String × String)) : Except HttpError Resp :=
  let matching := a.routes.filter (fun r => (matchPattern r.pattern path).isSome)
  match matching.find? (fun r => r.method = method) with
  | some r =>
    let ctx : Ctx :=
      { path := path, method := method,
        pathParams := (matchPattern r.pattern path).getD [],
        queryParams := query, bodyParams := body }
    let chain := buildChain (a.globals ++ r.handler.wrapped) (handlerCont r.handler ctx)
    match (chain []).2 with
    | .ok resp => .ok resp
    | .error e => .error (bindErrorResponse e)
  | none =>
    if matching.isEmpty then .error (NotFound "Not Found" none)
    else .error (NoMethod "" (some (matching.map (fun r => r.method))) none)

/-- `Application.test_get(path, params)`: synchronous test invocation of a
GET request with the given query parameters and empty body. -/
def App.test_get (a : App) (path : String) (query : List (String × String)) :
    Except HttpError Resp :=
  a.dispatch "GET" path query []

/-! ## Database plugin (`plugin/database.py`)

`processor` and `make_session` are embedded as functions of the two
externally determined outcomes — session acquisition
(`global_data.db_session_maker()`) and the wrapped computation (`ctx()` or
the `yield` body) — each of which either succeeds or raises. The embedding
records the observable session events in order. -/

/-- A Python exception as observed by the caller: an `AttributeError` from
accessing an unassigned attribute (or `None`), or any other exception,
identified by a number. -/
inductive PyExc where
  | attrError
  | userExc (n : Nat)
deriving DecidableEq, Repr

/-- Observable session lifecycle events of `processor`/`make_session`. -/
inductive DbEv where
  | acquired
  | began
  | committed
  | txnRolledBack
  | rolledBack
  | closed
  | contCalled
deriving DecidableEq, Repr

/-- The result of one `processor`/`make_session` run: the ordered event
trace, the outcome seen by the caller, and whether the session variable
(`ctx.db`, resp. `session`) was ever assigned a session. -/
structure ProcResult (α : Type) where
  trace : List DbEv
  outcome : Except PyExc α
  dbAssigned : Bool

/-- `processor(ctx)` from `plugin/database.py`, by cases on the Python
control flow of its `try/except/finally`:

* acquisition raises: `ctx.db` is never assigned, so the bare `except`
  branch's `ctx.db.rollback()` raises `AttributeError`, and the `finally`
  branch's `ctx.db.close()` raises `AttributeError` again, which replaces
  the in-flight exception — the caller sees `AttributeError` and no
  session event occurs;
* acquisition succeeds, `autocommit` on: `with ctx.db.begin(): return ctx()`
  — the transaction commits on success and rolls back on an exception from
  `ctx()`; an exception then reaches `except` (`ctx.db.rollback()`) and is
  re-raised; `finally` closes the session in either case;
* acquisition succeeds, `autocommit` off: `return ctx()`; an exception
  reaches `except` (`ctx.db.rollback()`) and is re-raised; `finally`
  closes the session in either case. -/
def processor (auto : Bool) (acq : Except PyExc Unit) (cont : Except PyExc α) :
    ProcResult α :=
  match acq with
  | .error _ => { trace := [], outcome := .error .attrError, dbAssigned := false }
  | .ok _ =>
    match auto, cont with
    | true, .ok v =>
      { trace := [.acquired, .began, .contCalled, .committed, .closed],
        outcome := .ok v, dbAssigned := true }
    | true, .error e =>
      { trace := [.acquired, .began, .contCalled, .txnRolledBack, .rolledBack, .closed],
        outcome := .error e, dbAssigned := true }
    | false, .ok v =>
      { trace := [.acquired, .contCalled, .closed],
        outcome := .ok v, dbAssigned := true }
    | false, .error e =>
      { trace := [.acquired, .contCalled, .rolledBack, .closed],
        outcome := .error e, dbAssigned := true }

/-- `make_session()` from `plugin/database.py`, by cases on its
`try/except/finally`: `session = None`; if acquisition raises, the bare
`except` branch's `session.rollback()` is called on `None` and raises
`AttributeError`, as does `session.close()` in `finally`, which replaces
the in-flight exception; if acquisition succeeds, the `yield` body runs,
an exception from it is preceded by `session.rollback()` and re-raised,
and `finally` closes the session on either path. -/
def make_session (acq : Except PyExc Unit) (body : Except PyExc α) :
    ProcResult α :=
  match acq with
  | .error _ => { trace := [], outcome := .error .attrError, dbAssigned := false }
  | .ok _ =>
    match body with
    | .ok v =>
      { trace := [.acquired, .contCalled, .closed],
        outcome := .ok v, dbAssigned := true }
    | .error e =>
      { trace := [.acquired, .contCalled, .rolledBack, .closed],
        outcome := .error e, dbAssigned := true }

/-! ## Concrete fixtures from `test/test_usage.py` -/

/-- Default bound argument used for positional access in fixtures. -/
def defaultArg : BoundArg := .datum (.vStr "")

/-- The string content of a bound argument. -/
def argStr : BoundArg → String
  | .datum (.vStr s) => s
  | .datum (.vInt n) => toString n
  | .datum (.vBool b) => toString b
  | .injectedCtx c => c.path

/-- `add1(a, b): return {'ans': a + b}` from `test_usage.py`. -/
def add1 : HandlerObj :=
  { sig := { params := [.dataP "a" .strT, .dataP "b" .strT], doc := "" },
    impl := fun args =>
      [("ans", argStr (args.getD 0 defaultArg) ++ argStr (args.getD 1 defaultArg))],
    wrapped := [] }

/-- `wrapper(ctx): return {'ans': '[' + ctx()['ans'] + ']'}` from
`test_usage.py`: calls the continuation once and post-processes; an
exception from the continuation propagates. -/
def wrapperI : Interceptor DispV :=
  fun next log =>
    match next log with
    | (log2, .ok r) => (log2, .ok [("ans", "[" ++ (assoc r "ans").getD "" ++ "]")])
    | (log2, .error e) => (log2, .error e)

/-- The application of `test_fetch_param`, third block: `add1` mapped to
`GET /add` with `wrapper` as a global interceptor. -/
def appAddWrapped : App :=
  ((App.empty.add_mapping "/add" "GET" add1).add_interceptor wrapperI)

/-- An application with only `GET /add` registered (method-mismatch
fixture). -/
def appAddOnly : App :=
  App.empty.add_mapping "/add" "GET" add1

/-- The context of a request to `/item/5?id=9` against the registered
pattern `/item/{id}` (binding-priority fixture): path parameters as
captured by the router, query string `id=9`. -/
def itemCtx : Ctx :=
  { path := "/item/5", method := "GET",
    pathParams := (matchPattern "/item/\x7bid\x7d" "/item/5").getD [],
    queryParams := [("id", "9")], bodyParams := [] }

/-- A context whose query string contains a parameter literally named
`ctx` (Context-injection fixture). -/
def clashCtx : Ctx :=
  { path := "/add", method := "GET", pathParams := [],
    queryParams := [("ctx", "evil"), ("a", "x")], bodyParams := [] }

/-- A handler signature with one integer parameter `x` and doc `doc one`
(binding-error fixture). -/
def sigOne : HandlerSig := { params := [.dataP "x" .intT], doc := "doc one" }

/-- The same signature as `sigOne` except for the doc string. -/
def sigTwo : HandlerSig := { params := [.dataP "x" .intT], doc := "doc two" }

/-- A request context supplying the non-numeric value `abc` for `x`. -/
def badCtx : Ctx :=
  { path := "/add", method := "GET", pathParams := [],
    queryParams := [("x", "abc")], bodyParams := [] }

/-! ## Chain lemmas -/

/-- Running a chain of transparent logging interceptors around an arbitrary
continuation: every label is entered in list order on the way in, the
continuation runs on the accumulated log, and every label is exited in
reverse order on the way out. -/
theorem buildChain_logIt (ls : List String) (h : Cont α) (log : List Ev) :
    buildChain (ls.map logIt) h log =
      ((h (log ++ ls.map Ev.enter)).1 ++ ls.reverse.map Ev.exit,
       (h (log ++ ls.map Ev.enter)).2) := by
  induction ls generalizing log with
  | nil => simp [buildChain]
  | cons a tl ih =>
    simp only [List.map_cons, buildChain, List.foldr_cons] at *
    show logIt a (fun lg => List.foldr (fun i k => i k) h (tl.map logIt) lg) log = _
    simp only [logIt]
    rw [ih (log ++ [Ev.enter a])]
    simp [List.append_assoc]

/-- Folding a chain distributes over list concatenation. -/
theorem buildChain_append (l1 l2 : List (Interceptor α)) (h : Cont α) :
    buildChain (l1 ++ l2) h = buildChain l1 (buildChain l2 h) := by
  simp [buildChain, List.foldr_append]

/-! ## Claim theorems -/

/-- C1: for a chain built from global interceptors registered in order
[A, B], a per-handler interceptor [C], and terminal handler H, invocation
executes A-enter, B-enter, C-enter, H, C-exit, B-exit, A-exit; and in
general the first interceptor of the concatenated list
`global ++ per-handler` is the outermost wrapper — enters in list order,
then the handler, then exits in reverse list order. -/
theorem interceptor_ordering (A B C : String) (v : α) :
    buildChain (([A, B] ++ [C]).map logIt) (handlerH "H" v) [] =
      ([Ev.enter A, Ev.enter B, Ev.enter C, Ev.handler "H",
        Ev.exit C, Ev.exit B, Ev.exit A], v) ∧
    ∀ (g p : List String) (w : α),
      buildChain ((g ++ p).map logIt) (handlerH "H" w) [] =
        ((g ++ p).map Ev.enter ++ [Ev.handler "H"] ++ (g ++ p).reverse.map Ev.exit, w) := by
  constructor
  · rw [buildChain_logIt]
    simp [handlerH]
  · intro g p w
    rw [buildChain_logIt]
    simp [handlerH]

/-- C2: if an interceptor returns without invoking its continuation, none
of the interceptors after it in the chain run, the terminal handler does
not run (the resulting trace and value are independent of `rest` and `h`,
which are universally quantified), and the short-circuiting interceptor's
own return value is the final result of the chain. -/
theorem interceptor_short_circuit (pre : List String)
    (rest : List (Interceptor α)) (h : Cont α) (v : α) :
    buildChain (pre.map logIt ++ shortCircuit v :: rest) h [] =
      (pre.map Ev.enter ++ pre.reverse.map Ev.exit, v) := by
  rw [buildChain_append]
  have hsc : buildChain (shortCircuit v :: rest) h = fun log => (log, v) := rfl
  rw [hsc, buildChain_logIt]
  simp

/-- C3: a non-Context parameter is resolved by name in the fixed priority
order path params, then query params, then body fields — the first source
containing the name wins; for pattern `/item/{id}` and a request to
`/item/5?id=9`, the router captures `id := 5` and the bound value is `5`
although the query string holds `id=9`. -/
theorem binding_priority :
    (∀ (ctx : Ctx) (name v : String),
       assoc ctx.pathParams name = some v → lookupParam ctx name = some v) ∧
    (∀ (ctx : Ctx) (name v : String),
       assoc ctx.pathParams name = none → assoc ctx.queryParams name = some v →
       lookupParam ctx name = some v) ∧
    (∀ (ctx : Ctx) (name : String),
       assoc ctx.pathParams name = none → assoc ctx.queryParams name = none →
       lookupParam ctx name = assoc ctx.bodyParams name) ∧
    itemCtx.pathParams = [("id", "5")] ∧
    assoc itemCtx.queryParams "id" = some "9" ∧
    lookupParam itemCtx "id" = some "5" := by
  refine ⟨?_, ?_, ?_, rfl, rfl, rfl⟩
  · intro ctx name v h
    simp [lookupParam, h]
  · intro ctx name v h1 h2
    simp [lookupParam, h1, h2]
  · intro ctx name h1 h2
    simp [lookupParam, h1, h2]

/-- Witness for C3 at the concrete `/item/5?id=9` request. -/
theorem binding_priority_witness : lookupParam itemCtx "id" = some "5" :=
  binding_priority.1 itemCtx "id" "5" rfl

/-- C7: a parameter declared with the Context type is bound to the live
context directly, for every context — hence never looked up in
path/query/body and never coerced, even when a request parameter of the
same name exists (the `clashCtx` fixture) — while data parameters receive
values resolved from the request and coerced. -/
theorem context_injection :
    (∀ (doc : String) (ctx : Ctx) (name : String),
       bindOne doc ctx (.ctxP name) = .ok (.injectedCtx ctx)) ∧
    (∀ (doc : String) (ctx : Ctx) (name : String) (ty : PType)
       (raw : String) (w : PVal),
       lookupParam ctx name = some raw → coerce ty raw = .ok w →
       bindOne doc ctx (.dataP name ty) = .ok (.datum w)) ∧
    lookupParam clashCtx "ctx" = some "evil" ∧
    bindOne "" clashCtx (.ctxP "ctx") = .ok (.injectedCtx clashCtx) := by
  refine ⟨fun doc ctx name => rfl, ?_, rfl, rfl⟩
  intro doc ctx name ty raw w h1 h2
  simp [bindOne, h1, h2]

/-- Witness for C7: a data parameter of `clashCtx` is bound from the
query string. -/
theorem context_injection_witness :
    bindOne "" clashCtx (.dataP "a" .strT) = .ok (.datum (.vStr "x")) :=
  context_injection.2.1 "" clashCtx "a" PType.strT "x" (PVal.vStr "x") rfl rfl

/-- C4 counterexample: `BadParamError` does not carry the handler
documentation string. Two binder invocations differing only in the handler
doc produce identical outputs, so no reading of the error value recovers
the doc of both. -/
theorem badparam_lacks_doc :
    ¬ ∃ f : Except BindError (List BoundArg) → String,
        f (bindAll sigOne badCtx) = sigOne.doc ∧
        f (bindAll sigTwo badCtx) = sigTwo.doc := by
  rintro ⟨f, h1, h2⟩
  have he : bindAll sigOne badCtx = bindAll sigTwo badCtx := rfl
  rw [he] at h1
  have hd : sigOne.doc = sigTwo.doc := h1.symm.trans h2
  exact absurd hd (by decide)

/-- C4 (amended): binding failures form a two-case taxonomy — a required
parameter absent from path, query and body raises
`NeedParamError(name, handler_doc)`, and a parameter present but failing
type coercion raises `BadParamError(name, coercion_error)`; each converts
to a status-400 response. -/
theorem binding_error_taxonomy (sig : HandlerSig) (ctx : Ctx)
    (name : String) (ty : PType) :
    (lookupParam ctx name = none →
       bindOne sig.doc ctx (.dataP name ty) =
         .error (.needE { query := name, doc := sig.doc }) ∧
       (bindErrorResponse (.needE { query := name, doc := sig.doc })).status_code = 400) ∧
    (∀ (raw msg : String),
       lookupParam ctx name = some raw → coerce ty raw = .error msg →
       bindOne sig.doc ctx (.dataP name ty) =
         .error (.badE { query := name, error := msg }) ∧
       (bindErrorResponse (.badE { query := name, error := msg })).status_code = 400) := by
  constructor
  · intro h
    refine ⟨?_, rfl⟩
    simp [bindOne, h]
  · intro raw msg h1 h2
    refine ⟨?_, rfl⟩
    simp [bindOne, h1, h2]

/-- Witness for C4 (amended), at the concrete failing coercion of `abc`
to an integer parameter. -/
theorem binding_error_taxonomy_witness :
    bindOne sigOne.doc badCtx (.dataP "x" .intT) =
      .error (.badE { query := "x", error := "invalid literal for int: abc" }) ∧
    (bindErrorResponse
       (.badE { query := "x", error := "invalid literal for int: abc" })).status_code = 400 :=
  (binding_error_taxonomy sigOne badCtx "x" PType.intT).2
    "abc" "invalid literal for int: abc" rfl rfl

/-! ## Ordered-dictionary lemmas -/

/-- Lookup in a non-empty ordered dictionary checks the head first. -/
theorem assoc_cons (p : String × String) (l : List (String × String)) (k : String) :
    assoc (p :: l) k = if p.1 = k then some p.2 else assoc l k := by
  by_cases h : p.1 = k <;> simp [assoc, List.find?_cons, h]

/-- Replacing the value at key `k` leaves lookups of other keys unchanged. -/
theorem assoc_map_replace_ne (l : List (String × String)) (k v k' : String)
    (hne : k' ≠ k) :
    assoc (l.map (fun p => if p.1 = k then (k, v) else p)) k' = assoc l k' := by
  induction l with
  | nil => rfl
  | cons p tl ih =>
    by_cases hp : p.1 = k
    · have hk : k ≠ k' := fun h => hne h.symm
      simp [hp, assoc_cons, hk, ih]
    · simp [hp, assoc_cons, ih]

/-- Replacing the value at a present key `k` makes lookup of `k` return the
new value. -/
theorem assoc_map_replace_self (l : List (String × String)) (k v : String)
    (hc : k ∈ l.map Prod.fst) :
    assoc (l.map (fun p => if p.1 = k then (k, v) else p)) k = some v := by
  induction l with
  | nil => cases hc
  | cons p tl ih =>
    by_cases hp : p.1 = k
    · simp [hp, assoc_cons]
    · have : k ∈ tl.map Prod.fst := by
        rcases List.mem_cons.mp hc with h | h
        · exact absurd h.symm hp
        · exact h
      simp [hp, assoc_cons, ih this]

/-- Appending a pair with a fresh key leaves lookups of other keys
unchanged. -/
theorem assoc_append_single_ne (l : List (String × String)) (k v k' : String)
    (hne : k' ≠ k) :
    assoc (l ++ [(k, v)]) k' = assoc l k' := by
  induction l with
  | nil =>
    have hk : k ≠ k' := fun h => hne h.symm
    simp [assoc_cons, hk, assoc]
  | cons p tl ih =>
    simp only [List.cons_append, assoc_cons, ih]

/-- Appending a pair with a key not yet present makes lookup of that key
return the appended value. -/
theorem assoc_append_single_self (l : List (String × String)) (k v : String)
    (hc : k ∉ l.map Prod.fst) :
    assoc (l ++ [(k, v)]) k = some v := by
  induction l with
  | nil => simp [assoc_cons]
  | cons p tl ih =>
    have hp : p.1 ≠ k := fun h => hc (by simp [h])
    have htl : k ∉ tl.map Prod.fst := fun h => hc (by simp [h])
    simp only [List.cons_append, assoc_cons, hp, if_false, ih htl]

/-- `dict(d, k=v)` lookups: the written key maps to the new value. -/
theorem assoc_dictSet_self (l : List (String × String)) (k v : String) :
    assoc (dictSet l k v) k = some v := by
  unfold dictSet
  by_cases hc : (l.map Prod.fst).contains k
  · rw [if_pos hc]
    exact assoc_map_replace_self l k v (by simpa using hc)
  · rw [if_neg hc]
    exact assoc_append_single_self l k v (by simpa using hc)

/-- `dict(d, k=v)` lookups: other keys are unchanged. -/
theorem assoc_dictSet_ne (l : List (String × String)) (k v k' : String)
    (hne : k' ≠ k) :
    assoc (dictSet l k v) k' = assoc l k' := by
  unfold dictSet
  by_cases hc : (l.map Prod.fst).contains k
  · rw [if_pos hc]
    exact assoc_map_replace_ne l k v k' hne
  · rw [if_neg hc]
    exact assoc_append_single_ne l k v k' hne

/-- C9 counterexample: the stated iff fails when the caller passes a
`headers` argument that already contains an `Allow` key — here
`NoMethod('', None, {'Allow': 'X'})` has falsy `methods` yet its headers
contain `Allow`. -/
theorem noMethod_allow_counterexample :
    truthyList none = false ∧
    assoc (NoMethod "" none (some [("Allow", "X")])).headers "Allow" = some "X" :=
  ⟨rfl, rfl⟩

/-- C9 (amended): for every construction of `NoMethod` whose passed
headers do not already contain an `Allow` key, the status code is 405 and
the headers contain `Allow` (with value the `', '`-joined methods list)
if and only if a truthy `methods` argument is passed; `NoMethod`
constructed with its default arguments (the default expression
`None and ['GET', ...]` evaluates to `None`) produces headers containing
only `Content-Type: text/html`. -/
theorem noMethod_allow_header (text : String) (methods : Option (List String))
    (headers : Option (List (String × String)))
    (hno : assoc (headers.getD []) "Allow" = none) :
    (NoMethod text methods headers).status_code = 405 ∧
    assoc (NoMethod text methods headers).headers "Allow" =
      (if truthyList methods then some (joinSep ", " (methods.getD [])) else none) ∧
    noMethodDefaultMethods = none ∧
    noMethodDefault.headers = [("Content-Type", "text/html")] := by
  refine ⟨rfl, ?_, rfl, rfl⟩
  unfold NoMethod textHttpError HttpError.make
  simp only [Option.getD_some]
  rw [assoc_dictSet_ne _ _ _ _ (by decide)]
  by_cases hm : truthyList methods
  · rw [if_pos hm, if_pos hm]
    exact assoc_dictSet_self _ _ _
  · rw [if_neg hm, if_neg hm]
    exact hno

/-- Witness for C9 (amended) at `NoMethod('', ['GET'], None)`. -/
theorem noMethod_allow_header_witness :
    (NoMethod "" (some ["GET"]) none).status_code = 405 ∧
    assoc (NoMethod "" (some ["GET"]) none).headers "Allow" =
      (if truthyList (some ["GET"]) then some (joinSep ", " ["GET"]) else none) ∧
    noMethodDefaultMethods = none ∧
    noMethodDefault.headers = [("Content-Type", "text/html")] :=
  noMethod_allow_header "" (some ["GET"]) none rfl

/-- C6: when some registered pattern matches the requested path but no
matching route has the request's method, dispatch fails with the
`NoMethod` error carrying the allowed methods of that path, and every
such error response has status 405 and an `Allow` header joining those
methods. -/
theorem dispatch_method_not_allowed (a : App) (method path : String)
    (q bd : List (String × String))
    (hsome : a.routes.filter (fun r => (matchPattern r.pattern path).isSome) ≠ [])
    (hnone : (a.routes.filter (fun r => (matchPattern r.pattern path).isSome)).find?
        (fun r => r.method = method) = none) :
    a.dispatch method path q bd =
      .error (NoMethod "" (some ((a.routes.filter
        (fun r => (matchPattern r.pattern path).isSome)).map (fun r => r.method))) none) ∧
    ∀ (err : HttpError), a.dispatch method path q bd = .error err →
      err.status_code = 405 ∧
      assoc err.headers "Allow" = some (joinSep ", " ((a.routes.filter
        (fun r => (matchPattern r.pattern path).isSome)).map (fun r => r.method))) := by
  rcases hl : a.routes.filter (fun r => (matchPattern r.pattern path).isSome) with _ | ⟨r, rs⟩
  · exact absurd hl hsome
  rw [hl] at hnone
  have h1 : a.dispatch method path q bd =
      .error (NoMethod "" (some ((r :: rs).map (fun r => r.method))) none) := by
    simp only [App.dispatch, hl, hnone]
    simp
  rw [hl]
  refine ⟨h1, ?_⟩
  intro err herr
  rw [h1] at herr
  injection herr with h
  subst h
  refine ⟨rfl, ?_⟩
  unfold NoMethod textHttpError HttpError.make
  simp only [Option.getD_some, Option.getD_none]
  rw [assoc_dictSet_ne _ _ _ _ (by decide)]
  have hm : truthyList (some ((r :: rs).map (fun r => r.method))) = true := by
    simp [truthyList]
  rw [if_pos hm]
  exact assoc_dictSet_self _ _ _

/-- Witness for C6: only `GET /add` is registered and `POST /add` is
requested; the dispatch result is the 405 `NoMethod` error whose `Allow`
header lists `GET`. -/
theorem dispatch_method_not_allowed_witness :
    appAddOnly.dispatch "POST" "/add" [] [] =
      .error (NoMethod "" (some ["GET"]) none) ∧
    ∀ (err : HttpError), appAddOnly.dispatch "POST" "/add" [] [] = .error err →
      err.status_code = 405 ∧
      assoc err.headers "Allow" = some "GET" := by
  have h := dispatch_method_not_allowed appAddOnly "POST" "/add" [] []
    (fun hh => List.noConfusion hh) rfl
  exact h

/-- C5: whenever session acquisition succeeds, `processor` acquires
exactly one session, assigns it to `ctx.db`, invokes the continuation
exactly once, and closes the session exactly once as the last action on
every exit path; if the continuation raises, a rollback happens before
the close and the same exception is re-raised; if it returns, its value
is returned. -/
theorem processor_session_discipline (auto : Bool) (cont : Except PyExc α) :
    (processor auto (.ok ()) cont).trace.count DbEv.acquired = 1 ∧
    (processor auto (.ok ()) cont).dbAssigned = true ∧
    (processor auto (.ok ()) cont).trace.count DbEv.contCalled = 1 ∧
    (processor auto (.ok ()) cont).trace.count DbEv.closed = 1 ∧
    (processor auto (.ok ()) cont).trace.getLast? = some DbEv.closed ∧
    (∀ v, cont = .ok v → (processor auto (.ok ()) cont).outcome = .ok v) ∧
    (∀ e, cont = .error e →
       (processor auto (.ok ()) cont).outcome = .error e ∧
       ∃ i j, i < j ∧
         (processor auto (.ok ()) cont).trace.get? i = some DbEv.rolledBack ∧
         (processor auto (.ok ()) cont).trace.get? j = some DbEv.closed) := by
  cases auto <;> cases cont
  · refine ⟨rfl, rfl, rfl, rfl, rfl, ?_, ?_⟩
    · intro w hw
      exact Except.noConfusion hw
    · intro e' he
      injection he with h
      subst h
      exact ⟨rfl, 2, 3, by decide, rfl, rfl⟩
  · refine ⟨rfl, rfl, rfl, rfl, rfl, ?_, ?_⟩
    · intro w hw
      injection hw with h
      subst h
      rfl
    · intro e he
      exact Except.noConfusion he
  · refine ⟨rfl, rfl, rfl, rfl, rfl, ?_, ?_⟩
    · intro w hw
      exact Except.noConfusion hw
    · intro e' he
      injection he with h
      subst h
      exact ⟨rfl, 4, 5, by decide, rfl, rfl⟩
  · refine ⟨rfl, rfl, rfl, rfl, rfl, ?_, ?_⟩
    · intro w hw
      injection hw with h
      subst h
      rfl
    · intro e he
      exact Except.noConfusion he

/-- Witness for C5: `autocommit` off, continuation raises exception 7 —
the exception is re-raised and a rollback precedes the close. -/
theorem processor_session_discipline_witness :
    (processor false (.ok ()) (.error (.userExc 7) : Except PyExc Nat)).outcome =
      .error (.userExc 7) ∧
    ∃ i j, i < j ∧
      (processor false (.ok ()) (.error (.userExc 7) : Except PyExc Nat)).trace.get? i =
        some DbEv.rolledBack ∧
      (processor false (.ok ()) (.error (.userExc 7) : Except PyExc Nat)).trace.get? j =
        some DbEv.closed :=
  (processor_session_discipline false (.error (.userExc 7))).2.2.2.2.2.2
    (.userExc 7) rfl

/-- C10: when session acquisition itself raises, the cleanup code of
`processor` and `make_session` calls `.rollback()`/`.close()` on an
unassigned session, so the caller observes an `AttributeError` instead of
the original acquisition error, no session event (in particular no close)
occurs, and the release guarantee holds only under the precondition that
acquisition succeeds. -/
theorem acquisition_failure_attribute_error (auto : Bool) (e : PyExc)
    (cont body : Except PyExc α) :
    (processor auto (.error e) cont).outcome = .error .attrError ∧
    (processor auto (.error e) cont).dbAssigned = false ∧
    (processor auto (.error e) cont).trace = [] ∧
    (make_session (.error e) body).outcome = .error .attrError ∧
    (make_session (.error e) body).dbAssigned = false ∧
    (make_session (.error e) body).trace = [] ∧
    (∀ n, e = .userExc n →
       (processor auto (.error e) cont).outcome ≠ .error e ∧
       (make_session (.error e) body).outcome ≠ .error e) := by
  refine ⟨rfl, rfl, rfl, rfl, rfl, rfl, ?_⟩
  intro n hn
  subst hn
  constructor <;> simp [processor, make_session]

/-- Witness for C10: acquisition raises exception 3; neither `processor`
nor `make_session` re-raises it (an `AttributeError` replaces it). -/
theorem acquisition_failure_attribute_error_witness :
    (processor true (.error (.userExc 3)) (.ok 0 : Except PyExc Nat)).outcome ≠
      .error (.userExc 3) ∧
    (make_session (.error (.userExc 3)) (.ok 0 : Except PyExc Nat)).outcome ≠
      .error (.userExc 3) :=
  (acquisition_failure_attribute_error true (.userExc 3) (.ok 0) (.ok 0)).2.2.2.2.2.2
    3 rfl

/-- C8: with handler `add1` mapped to `GET /add` and interceptor `wrapper`
registered globally, the test invocation of `GET /add?a=a&b=b` yields
exactly `{'ans': '[ab]'}`. -/
theorem end_to_end_add_wrapper :
    appAddWrapped.test_get "/add" [("a", "a"), ("b", "b")] =
      .ok [("ans", "[ab]")] := rfl

end Lessweb
